import Mathlib

/-!
Shallow embedding of `whos-on-call-v3.py`: a single-pass script that
fetches the current on-call users of one PagerDuty escalation policy,
reduces them to a primary (level 1) and an optional secondary (level 2),
resolves both against the Slack member directory, and posts the resolved
identifiers as the new membership of a Slack usergroup.

Python values are modelled as follows: `os.getenv` results are
`Option String` (`none` = variable unset); presence of a JSON key is an
`Option` field; Python string formatting of `None` yields the literal
string `"None"`; machine behaviour such as an uncaught `TypeError` or
`IndexError` is an explicit `PyExc` value in the run result.
-/

namespace WhosOnCall

/-- The six environment variables read at lines 17-27 of the script.
`none` models an unset variable. -/
structure Env where
  PAGERDUTY_APIKEY : Option String
  PAGERDUTY_ONCALL_ESCALATION : Option String
  PAGERDUTY_API_ONCALL : Option String
  SLACK_APIKEY : Option String
  SLACK_USERGROUP_ID : Option String
  SLACK_ORG_URL : Option String
deriving DecidableEq

/-- Python truthiness of an `os.getenv` result: `None` and `""` are falsy. -/
def truthy : Option String → Bool
  | none => false
  | some s => !(s == "")

/-- Python `'%s' % v` where `v` is a string or `None`. -/
def pyFormat : Option String → String
  | none => "None"
  | some s => s

/-- `PAGERDUTY_API_ONCALL = os.getenv(..., default)` (line 19). -/
def pagerduty_api_oncall (env : Env) : String :=
  env.PAGERDUTY_API_ONCALL.getD
    "https://api.pagerduty.com/oncalls?include[]=users&escalation_policy_ids[]="

/-- `PAGERDUTY_ONCALL_URI = PAGERDUTY_API_ONCALL + PAGERDUTY_ONCALL_ESCALATION`
(line 20).  When the escalation variable is unset, Python 2 raises
`TypeError: cannot concatenate 'str' and 'NoneType' objects` at module
initialisation; that is modelled by `none` here. -/
def pagerduty_oncall_uri (env : Env) : Option String :=
  match env.PAGERDUTY_ONCALL_ESCALATION with
  | none => none
  | some esc => some (pagerduty_api_oncall env ++ esc)

/-- `SLACK_ORG_URL = os.getenv(..., "https://mesosphere.slack.com")` (line 26). -/
def slack_org_url (env : Env) : String :=
  env.SLACK_ORG_URL.getD "https://mesosphere.slack.com"

/-- The nested `user` object of a PagerDuty oncall entry. -/
structure PDUser where
  name : String
  email : String
deriving DecidableEq

/-- One entry of the PagerDuty response's `oncalls` array. -/
structure PDEntry where
  user : PDUser
  escalation_level : Nat
  start : String
  «end» : String
deriving DecidableEq

/-- The PagerDuty JSON response: an `oncalls` array and a `more` flag. -/
structure PDResponse where
  oncalls : List PDEntry
  more : Bool
deriving DecidableEq

/-- The shape built by `transform_pagerduty_results` (lines 29-42). -/
structure Oncall where
  name : String
  email : String
  level : Nat
  start : String
  «end» : String
deriving DecidableEq

/-- `transform_pagerduty_results` (lines 29-42): keep name, email,
escalation level, start and end of every oncall entry, in order. -/
def transform_pagerduty_results (results : PDResponse) : List Oncall :=
  results.oncalls.map fun e =>
    ⟨e.user.name, e.user.email, e.escalation_level, e.start, e.«end»⟩

/-- The list-comprehension filters at lines 86-87:
`[user for user in possible_oncalls if user['level'] == lvl]`. -/
def selectLevel (possible : List Oncall) (lvl : Nat) : List Oncall :=
  possible.filter fun u => u.level == lvl

/-- Lexicographic less-or-equal on character lists: the order Python 2
uses when `list.sort` compares the string keys. -/
def charListLE : List Char → List Char → Bool
  | [], _ => true
  | _ :: _, [] => false
  | a :: as, b :: bs =>
    if a < b then true else if b < a then false else charListLE as bs

/-- Python 2 string comparison `a <= b`: lexicographic by character. -/
def pyLE (a b : String) : Bool := charListLE a.data b.data

/-- The sort comparison effectively used at lines 94 and 98:
`key=lambda user: user['start']`, ascending Python string order. -/
def startLE (a b : Oncall) : Prop := pyLE a.start b.start = true

instance : DecidableRel startLE := fun a b =>
  inferInstanceAs (Decidable (pyLE a.start b.start = true))

/-- Lines 93-95 (and identically 97-99): when a level has more than one
record, Python's stable ascending `list.sort(key=...)` runs and the last
element `l[len(l) - 1]` is kept.  Python's stable sort by key is
extensionally `List.insertionSort` with the `startLE` comparison. -/
def reduceLevel (l : List Oncall) : List Oncall :=
  if h : 1 < l.length then
    [(List.insertionSort startLE l).getLast (by
      intro hnil
      have hlen := (List.perm_insertionSort startLE l).length_eq
      rw [hnil] at hlen
      simp at hlen
      omega)]
  else l

/-- A Slack member's `profile` object; a missing key is `none`. -/
structure SlackProfile where
  real_name : Option String
  email : Option String
deriving DecidableEq

/-- One element of the Slack `members` array. -/
structure SlackMember where
  id : String
  deleted : Bool
  is_restricted : Bool
  profile : SlackProfile
deriving DecidableEq

/-- The guard at lines 47-50 of `get_slack_id`: a member matches the
person when it is neither deleted nor restricted and its profile's
`real_name` equals the person's name or its profile's `email` equals the
person's email.  A missing profile key fails the corresponding `in`
check, so that half of the disjunction is false. -/
def member_matches (m : SlackMember) (person : Oncall) : Bool :=
  let name_match := match m.profile.real_name with
    | some rn => person.name == rn
    | none => false
  let email_match := match m.profile.email with
    | some e => person.email == e
    | none => false
  !m.deleted && !m.is_restricted && (name_match || email_match)

/-- `get_slack_id` (lines 44-53): scan the member list in order and
return the `id` of the first matching member; `None` when no member
matches. -/
def get_slack_id (members : List SlackMember) (person : Oncall) : Option String :=
  match members with
  | [] => none
  | m :: rest =>
    if member_matches m person then some m.id else get_slack_id rest person

/-- The `response_metadata` value of a Slack `users.list` page.  The
script compares the raw value against the empty string (line 116), so
the two shapes the value can take are modelled separately: the empty
string (only value for which the comparison fails), or an object
carrying a `next_cursor`. -/
inductive RespMeta
  | emptyString
  | withCursor (next_cursor : String)
deriving DecidableEq

/-- One Slack `users.list` JSON response. `none` models a missing key. -/
structure SlackPage where
  members : Option (List SlackMember)
  response_metadata : Option RespMeta
deriving DecidableEq

/-- The mutable state of the pagination loop at lines 106-119, plus a
count of requests issued so far. -/
structure LoopState where
  users : List SlackMember
  next_cursor : String
  got_all_users : Bool
  requests : Nat
deriving DecidableEq

/-- `users = []`, `next_cursor = ""`, `got_all_users = False` (lines 107-109). -/
def initLoopState : LoopState := ⟨[], "", false, 0⟩

/-- One iteration of the loop body (lines 111-119) applied to the page
the service returned: extend `users` when the page has a `members` key;
then either take the next cursor (when `response_metadata` is present
and differs from `""`) or set `got_all_users`. -/
def slackPageStep (page : SlackPage) (st : LoopState) : LoopState :=
  let users := match page.members with
    | some ms => st.users ++ ms
    | none => st.users
  match page.response_metadata with
  | some (RespMeta.withCursor c) => ⟨users, c, false, st.requests + 1⟩
  | some RespMeta.emptyString => ⟨users, st.next_cursor, true, st.requests + 1⟩
  | none => ⟨users, st.next_cursor, true, st.requests + 1⟩

/-- The `while got_all_users is False` loop (lines 110-119), run with
explicit fuel against a service oracle giving the response to the n-th
request.  When the fuel runs out before the loop exits, the returned
state still has `got_all_users = false`. -/
def runSlackLoop (server : Nat → SlackPage) : Nat → LoopState → LoopState
  | 0, st => st
  | n + 1, st =>
    if st.got_all_users then st
    else runSlackLoop server n (slackPageStep (server st.requests) st)

/-- Uncaught Python exceptions the script can raise. -/
inductive PyExc
  | typeError (msg : String)
  | indexError
deriving DecidableEq

/-- A printed line: either a plain string or a `json.dumps`/`print` of a
structured value, kept symbolic. -/
inductive OutputLine
  | text (s : String)
  | jsonOncallList (l : List Oncall)
  | jsonMember (m : SlackMember)
  | jsonOptStr (s : Option String)
  | jsonAck
deriving DecidableEq

/-- Line 60's message (printed when a mandatory variable is falsy). -/
def missingEnvMsg : String :=
  "Missing environment variable: \x27PAGERDUTY_APIKEY\x27, \x27SLACK_APIKEY\x27, or \x27SLACK_USERGROUP_ID\x27"

/-- Line 79's message (printed when the PagerDuty response has `more`). -/
def overflowMsg : String :=
  "Number of PagerDuty oncalls exceed 25; This schedule may be configured improperly"

/-- Line 82's message. -/
def foundMsg (env : Env) : String :=
  "Found the following on-call for Escalation Policy: \x27" ++
    pyFormat env.PAGERDUTY_ONCALL_ESCALATION ++ "\x27"

/-- Line 137's message. -/
def uhOhMsg : String :=
  "Uh oh, couldn\x27t find both on-calls in Slack"

/-- Line 140: `SLACK_USERGROUP_URI % (SLACK_ORG_URL, SLACK_APIKEY,
SLACK_USERGROUP_ID, users)`. -/
def slack_usergroup_uri (org token group users : String) : String :=
  org ++ "/api/usergroups.users.update?token=" ++ token ++
    "&usergroup=" ++ group ++ "&users=" ++ users

/-- The `users` query value of line 140: `'%s,%s' % (primary, secondary)`
where either identifier may be Python `None`. -/
def users_param (primary secondary : Option String) : String :=
  pyFormat primary ++ "," ++ pyFormat secondary

/-- Python truthiness of an optional resolved identifier (line 136). -/
def truthyId : Option String → Bool
  | none => false
  | some s => !(s == "")

/-- The observable outcome of one run: process exit code, printed lines,
number of requests issued to each service, the usergroup-update POST (if
reached) and the uncaught exception (if any). -/
structure RunResult where
  exitCode : Nat
  outputs : List OutputLine
  pdRequests : Nat
  slackUserRequests : Nat
  updateRequest : Option String
  exc : Option PyExc
deriving DecidableEq

/-- The whole `__main__` flow (lines 55-143) plus the module-level URI
construction (line 20), as a function of the environment, the PagerDuty
response, the Slack directory service (an oracle from request index to
page) and loop fuel.  Returns `none` when the fuel is exhausted before
the pagination loop exits, i.e. the run has not finished. -/
def runProgram (env : Env) (pd : PDResponse) (server : Nat → SlackPage)
    (fuel : Nat) : Option RunResult :=
  match pagerduty_oncall_uri env with
  | none =>
    -- Line 20 raises TypeError before __main__ runs.
    some ⟨1, [], 0, 0, none,
      some (PyExc.typeError "cannot concatenate \x27str\x27 and \x27NoneType\x27 objects")⟩
  | some uri =>
    if truthy env.PAGERDUTY_APIKEY && truthy env.PAGERDUTY_ONCALL_ESCALATION &&
        truthy env.SLACK_APIKEY && truthy env.SLACK_USERGROUP_ID then
      -- Line 66 prints the URI, line 67 issues the PagerDuty request.
      let possible := transform_pagerduty_results pd
      if pd.more then
        some ⟨1, [.text uri, .text overflowMsg], 1, 0, none, none⟩
      else
        let out1 : List OutputLine :=
          [.text uri, .text (foundMsg env), .jsonOncallList possible]
        let primary := reduceLevel (selectLevel possible 1)
        let secondary := reduceLevel (selectLevel possible 2)
        let out2 := out1 ++ [.text "Primary:", .jsonOncallList primary,
          .text "Secondary:", .jsonOncallList secondary]
        let st := runSlackLoop server fuel initLoopState
        if st.got_all_users then
          match primary with
          | [] =>
            -- Line 121: primary[0] on an empty list raises IndexError.
            some ⟨1, out2, 1, st.requests, none, some PyExc.indexError⟩
          | p0 :: _ =>
            let primaryId := get_slack_id st.users p0
            match st.users with
            | [] =>
              -- Line 122: users[0] on an empty list raises IndexError.
              some ⟨1, out2, 1, st.requests, none, some PyExc.indexError⟩
            | u0 :: _ =>
              let out3 := out2 ++ [.jsonMember u0]
              let secondaryId := match secondary with
                | [] => none
                | s0 :: _ => get_slack_id st.users s0
              let out4 := out3 ++ [.text "Primary:", .jsonOptStr primaryId,
                .text "Secondary:", .jsonOptStr secondaryId]
              let out5 := if !truthyId primaryId || !truthyId secondaryId then
                  out4 ++ [.text uhOhMsg]
                else out4
              let updateUri := slack_usergroup_uri (slack_org_url env)
                (pyFormat env.SLACK_APIKEY) (pyFormat env.SLACK_USERGROUP_ID)
                (users_param primaryId secondaryId)
              let out6 := out5 ++ [.text updateUri, .jsonAck]
              some ⟨0, out6, 1, st.requests, some updateUri, none⟩
        else none
    else
      some ⟨1, [.text missingEnvMsg], 0, 0, none, none⟩

/-- The `members` contribution of one page: its `members` array when the
key is present, nothing otherwise (lines 113-114). -/
def pageMembers (p : SlackPage) : List SlackMember :=
  match p.members with
  | some ms => ms
  | none => []

/-- Concatenation, in fetch order, of the member arrays of the first `k`
responses of the directory service. -/
def fetchedConcat (server : Nat → SlackPage) (k : Nat) : List SlackMember :=
  ((List.range k).map fun i => pageMembers (server i)).flatten

/-- `leadsWith p l`: `p` is an initial segment of `l`. -/
def leadsWith : List Char → List Char → Bool
  | [], _ => true
  | _ :: _, [] => false
  | p :: ps, c :: cs => p == c && leadsWith ps cs

/-- `occursIn pat l`: `pat` occurs contiguously somewhere in `l`. -/
def occursIn (pat : List Char) : List Char → Bool
  | [] => pat.isEmpty
  | c :: cs => leadsWith pat (c :: cs) || occursIn pat cs

/-- Substring test used to check whether a diagnostic names a value. -/
def strContains (hay pat : String) : Bool := occursIn pat.data hay.data

/-- Comma-splitting of a `users=` query value: the membership list the
chat platform reads from the update request. -/
def commaSplit (s : String) : List String :=
  (s.data.splitOn ',').map fun l => (⟨l⟩ : String)

/-- Concrete level-1 record "Alice". -/
def oncallA : Oncall :=
  ⟨"Alice", "alice@example.com", 1, "2024-01-01T00:00:00Z", "2024-01-08T00:00:00Z"⟩

/-- Concrete level-1 record "Bob", same `start` as `oncallA`. -/
def oncallB : Oncall :=
  ⟨"Bob", "bob@example.com", 1, "2024-01-01T00:00:00Z", "2024-01-08T00:00:00Z"⟩

/-- Concrete level-1 record "Carol" with a strictly later `start`. -/
def oncallC : Oncall :=
  ⟨"Carol", "carol@example.com", 1, "2024-02-01T00:00:00Z", "2024-02-08T00:00:00Z"⟩

/-- An environment with all four mandatory variables set. -/
def envAllSet : Env := ⟨some "pk", some "POL42", none, some "sk", some "ug", none⟩

/-- An environment whose only missing value is the escalation policy. -/
def envNoEsc : Env := ⟨some "pk", none, none, some "sk", some "ug", none⟩

/-- An environment whose only missing value is the Slack API key. -/
def envNoSlackKey : Env := ⟨some "pk", some "POL42", none, none, some "ug", none⟩

/-- A PagerDuty response with one level-1 entry and `more: true`. -/
def pdMoreTrue : PDResponse :=
  ⟨[⟨⟨"Alice", "alice@example.com"⟩, 1, "2024-01-01T00:00:00Z", "2024-01-08T00:00:00Z"⟩], true⟩

/-- A PagerDuty response whose only entry is level 2 (no primary). -/
def pdOnlySecondary : PDResponse :=
  ⟨[⟨⟨"Carol", "carol@example.com"⟩, 2, "2024-01-01T00:00:00Z", "2024-01-08T00:00:00Z"⟩], false⟩

/-- A PagerDuty response whose only entry is level 1 (no secondary). -/
def pdOnlyPrimary : PDResponse :=
  ⟨[⟨⟨"Alice", "alice@example.com"⟩, 1, "2024-01-01T00:00:00Z", "2024-01-08T00:00:00Z"⟩], false⟩

/-- A directory member matching `oncallA`. -/
def memberU1 : SlackMember :=
  ⟨"U1", false, false, ⟨some "Alice", some "alice@example.com"⟩⟩

/-- A final directory page: one member, no `response_metadata` key. -/
def finalPage : SlackPage := ⟨some [memberU1], none⟩

/-- A directory service that always answers with `finalPage`. -/
def oneServer : Nat → SlackPage := fun _ => finalPage

/-- A directory page carrying `response_metadata.next_cursor = ""`, the
shape the Slack API uses on the last page of results. -/
def emptyCursorPage : SlackPage := ⟨some [], some (RespMeta.withCursor "")⟩

/-! ## Order facts about the sort comparison -/

theorem charListLE_refl : ∀ as, charListLE as as = true
  | [] => rfl
  | a :: as => by simp [charListLE, lt_irrefl, charListLE_refl as]

theorem charListLE_total : ∀ as bs, charListLE as bs = true ∨ charListLE bs as = true
  | [], _ => Or.inl rfl
  | _ :: _, [] => Or.inr rfl
  | a :: as, b :: bs => by
    rcases lt_trichotomy a b with h | h | h
    · left; simp [charListLE, h]
    · subst h
      rcases charListLE_total as bs with ih | ih
      · left; simp [charListLE, lt_irrefl, ih]
      · right; simp [charListLE, lt_irrefl, ih]
    · right; simp [charListLE, h]

theorem charListLE_trans : ∀ as bs cs, charListLE as bs = true →
    charListLE bs cs = true → charListLE as cs = true
  | [], _, _ => by intro _ _; rfl
  | _ :: _, [], _ => by intro h; simp [charListLE] at h
  | _ :: _, _ :: _, [] => by intro _ h; simp [charListLE] at h
  | a :: as, b :: bs, c :: cs => by
    intro h1 h2
    by_cases hab : a < b
    · by_cases hbc : b < c
      · simp [charListLE, lt_trans hab hbc]
      · by_cases hcb : c < b
        · simp [charListLE, hbc, hcb] at h2
        · have hbc' : b = c := le_antisymm (not_lt.mp hcb) (not_lt.mp hbc)
          subst hbc'
          simp [charListLE, hab]
    · by_cases hba : b < a
      · simp [charListLE, hab, hba] at h1
      · have hab' : a = b := le_antisymm (not_lt.mp hba) (not_lt.mp hab)
        subst hab'
        simp [charListLE, lt_irrefl] at h1
        by_cases hbc : a < c
        · simp [charListLE, hbc]
        · by_cases hcb : c < a
          · simp [charListLE, hbc, hcb] at h2
          · have hac : a = c := le_antisymm (not_lt.mp hcb) (not_lt.mp hbc)
            subst hac
            simp [charListLE, lt_irrefl] at h2 ⊢
            exact charListLE_trans as bs cs h1 h2

theorem charListLE_antisymm : ∀ as bs, charListLE as bs = true →
    charListLE bs as = true → as = bs
  | [], [] => by intro _ _; rfl
  | [], _ :: _ => by intro _ h; simp [charListLE] at h
  | _ :: _, [] => by intro h _; simp [charListLE] at h
  | a :: as, b :: bs => by
    intro h1 h2
    by_cases hab : a < b
    · simp [charListLE, hab, lt_asymm hab] at h2
    · by_cases hba : b < a
      · simp [charListLE, hab, hba] at h1
      · have hab' : a = b := le_antisymm (not_lt.mp hba) (not_lt.mp hab)
        subst hab'
        simp [charListLE, lt_irrefl] at h1 h2
        rw [charListLE_antisymm as bs h1 h2]

theorem startLE_antisymm {a b : Oncall} (h1 : startLE a b) (h2 : startLE b a) :
    a.start = b.start := by
  have h := charListLE_antisymm a.start.data b.start.data h1 h2
  cases ha : a.start
  cases hb : b.start
  simp_all

/-! ## The reducer returns a maximal element -/

theorem pairwise_rel_getLast {α : Type _} {r : α → α → Prop} :
    ∀ {l : List α} (h : l ≠ []), l.Pairwise r →
      ∀ x ∈ l, x = l.getLast h ∨ r x (l.getLast h)
  | [a], _, _, x, hx => by
    simp only [List.mem_singleton] at hx
    subst hx
    left
    simp
  | a :: b :: t, _, hp, x, hx => by
    rw [List.getLast_cons (by simp)]
    rcases List.mem_cons.mp hx with rfl | hx
    · right
      exact (List.pairwise_cons.mp hp).1 _ (List.getLast_mem _)
    · exact pairwise_rel_getLast (by simp) (List.pairwise_cons.mp hp).2 x hx

/-- When a level's list has more than one record and a strict greatest
`start`, the tie-break at lines 93-99 keeps exactly that record. -/
theorem reduceLevel_eq_of_max {l : List Oncall} {m : Oncall} (hlen : 1 < l.length)
    (hm : m ∈ l) (hmax : ∀ x ∈ l, startLE x m)
    (huniq : ∀ x ∈ l, x.start = m.start → x = m) :
    reduceLevel l = [m] := by
  haveI : IsTotal Oncall startLE := ⟨fun a b => charListLE_total a.start.data b.start.data⟩
  haveI : IsTrans Oncall startLE := ⟨fun _ _ _ h1 h2 => charListLE_trans _ _ _ h1 h2⟩
  rw [reduceLevel, dif_pos hlen]
  have hperm := List.perm_insertionSort startLE l
  have hnil : List.insertionSort startLE l ≠ [] := by
    intro hcontra
    have hlen' := hperm.length_eq
    rw [hcontra] at hlen'
    simp at hlen'
    omega
  have hsorted : (List.insertionSort startLE l).Pairwise startLE :=
    List.sorted_insertionSort startLE l
  have hlast_mem : (List.insertionSort startLE l).getLast hnil ∈ l :=
    hperm.subset (List.getLast_mem hnil)
  have hm' : m ∈ List.insertionSort startLE l := hperm.mem_iff.mpr hm
  have hle : startLE m ((List.insertionSort startLE l).getLast hnil) := by
    rcases pairwise_rel_getLast hnil hsorted m hm' with heq | hrel
    · rw [← heq]
      exact charListLE_refl m.start.data
    · exact hrel
  have hge : startLE ((List.insertionSort startLE l).getLast hnil) m :=
    hmax _ hlast_mem
  have heq : (List.insertionSort startLE l).getLast hnil = m :=
    huniq _ hlast_mem (startLE_antisymm hge hle)
  simp [heq]

/-! ## Pagination loop invariants -/

theorem fetchedConcat_succ (server : Nat → SlackPage) (k : Nat) :
    fetchedConcat server (k + 1) =
      fetchedConcat server k ++ pageMembers (server k) := by
  simp [fetchedConcat, List.range_succ]

theorem slackPageStep_users (page : SlackPage) (st : LoopState) :
    (slackPageStep page st).users = st.users ++ pageMembers page := by
  rcases page with ⟨ms, rm⟩
  rcases ms with _ | ms <;> rcases rm with _ | (_ | c) <;>
    simp [slackPageStep, pageMembers]

theorem slackPageStep_requests (page : SlackPage) (st : LoopState) :
    (slackPageStep page st).requests = st.requests + 1 := by
  rcases page with ⟨ms, rm⟩
  rcases ms with _ | ms <;> rcases rm with _ | (_ | c) <;>
    simp [slackPageStep]

theorem runSlackLoop_users_inv (server : Nat → SlackPage) :
    ∀ (fuel : Nat) (st : LoopState),
      st.users = fetchedConcat server st.requests →
      (runSlackLoop server fuel st).users =
        fetchedConcat server (runSlackLoop server fuel st).requests
  | 0, st, h => h
  | fuel + 1, st, h => by
    rw [runSlackLoop]
    by_cases hd : st.got_all_users
    · simp [hd, h]
    · simp only [hd, if_false, Bool.false_eq_true]
      exact runSlackLoop_users_inv server fuel _ (by
        rw [slackPageStep_users, slackPageStep_requests, fetchedConcat_succ, h])

theorem runSlackLoop_empty_cursor_inv :
    ∀ (fuel : Nat) (st : LoopState), st.got_all_users = false →
      st.next_cursor = "" →
      (runSlackLoop (fun _ => emptyCursorPage) fuel st).got_all_users = false ∧
      (runSlackLoop (fun _ => emptyCursorPage) fuel st).next_cursor = "" ∧
      (runSlackLoop (fun _ => emptyCursorPage) fuel st).requests = st.requests + fuel
  | 0, _, h, hc => ⟨h, hc, rfl⟩
  | fuel + 1, st, h, _ => by
    rw [runSlackLoop]
    simp only [h, if_false, Bool.false_eq_true]
    have hstep : slackPageStep emptyCursorPage st =
        ⟨st.users ++ [], "", false, st.requests + 1⟩ := by
      simp [slackPageStep, emptyCursorPage]
    rw [hstep]
    have ih := runSlackLoop_empty_cursor_inv fuel
      ⟨st.users ++ [], "", false, st.requests + 1⟩ rfl rfl
    exact ⟨ih.1, ih.2.1, by rw [ih.2.2]; simp only []; omega⟩

/-! ## Claims -/

/-- C1 counterexample: two level-1 records sharing the same `start` are a
permutation of each other, yet the reducer (lines 93-95) returns a
different record for each input order, because Python's stable sort keeps
tied records in input order and the last element is taken. -/
theorem reduceLevel_tie_counterexample :
    [oncallA, oncallB].Perm [oncallB, oncallA] ∧
    oncallA.level = 1 ∧ oncallB.level = 1 ∧ oncallA.start = oncallB.start ∧
    reduceLevel [oncallA, oncallB] = [oncallB] ∧
    reduceLevel [oncallB, oncallA] = [oncallA] ∧
    reduceLevel [oncallA, oncallB] ≠ reduceLevel [oncallB, oncallA] := by
  decide

/-- C1 (amended): when more than one record shares a level and the record
with the lexically greatest `start` is unique (every tie for the greatest
`start` is the record itself), the reducer returns exactly that record,
and the same record for every permutation of the input list. -/
theorem reduceLevel_perm_of_unique_max (l1 l2 : List Oncall) (m : Oncall)
    (hperm : l1.Perm l2) (hlen : 1 < l1.length) (hm : m ∈ l1)
    (hmax : ∀ x ∈ l1, startLE x m)
    (huniq : ∀ x ∈ l1, x.start = m.start → x = m) :
    reduceLevel l1 = [m] ∧ reduceLevel l2 = [m] := by
  refine ⟨reduceLevel_eq_of_max hlen hm hmax huniq,
    reduceLevel_eq_of_max ?_ ?_ ?_ ?_⟩
  · rw [← hperm.length_eq]; exact hlen
  · exact hperm.subset hm
  · intro x hx; exact hmax x (hperm.symm.subset hx)
  · intro x hx; exact huniq x (hperm.symm.subset hx)

/-- C1 witness: with distinct `start` values the reducer picks the later
record from both orderings. -/
theorem reduceLevel_perm_of_unique_max_witness :
    reduceLevel [oncallA, oncallC] = [oncallC] ∧
    reduceLevel [oncallC, oncallA] = [oncallC] :=
  reduceLevel_perm_of_unique_max [oncallA, oncallC] [oncallC, oncallA] oncallC
    (by decide) (by decide) (by decide) (by decide) (by decide)

/-- C2 (code bug): a run with a resolved primary and no level-2 on-call
reaches the update request, but line 140 formats the absent secondary as
the literal string `None`, so the `users` value is `"U1,None"` — the
membership sent is `{U1, None}`, not exactly `{U1}`. -/
theorem update_request_sends_none_literal :
    (runProgram envAllSet pdOnlyPrimary oneServer 5).map
      (fun r => r.updateRequest) =
      some (some (slack_usergroup_uri "https://mesosphere.slack.com" "sk" "ug"
        (users_param (some "U1") none))) ∧
    users_param (some "U1") none = "U1,None" ∧
    commaSplit (users_param (some "U1") none) = ["U1", "None"] ∧
    commaSplit (users_param (some "U1") none) ≠ ["U1"] := by
  decide

/-- C3 (code bug): with no level-1 record the reduction stage silently
yields an empty primary list; the run proceeds to fetch the directory
(one Slack request issued) and then raises an uncaught IndexError at
`primary[0]` (line 121) instead of signalling an explicit
EmptyPrimaryError. -/
theorem empty_primary_uncaught_index_error :
    (runProgram envAllSet pdOnlySecondary oneServer 5).map
      (fun r => (r.exitCode, r.slackUserRequests, r.updateRequest, r.exc)) =
      some (1, 1, none, some PyExc.indexError) := by
  decide

/-- C4 (code bug): when every directory response carries
`response_metadata.next_cursor = ""` (the shape the Slack API uses on a
final page), the loop at lines 110-119 never sets `got_all_users`: after
`n` iterations it has issued `n` requests, the cursor is still the empty
string, and the loop continues — it does not terminate on an empty
cursor. -/
theorem empty_cursor_pages_loop_forever (n : Nat) :
    (runSlackLoop (fun _ => emptyCursorPage) n initLoopState).got_all_users = false ∧
    (runSlackLoop (fun _ => emptyCursorPage) n initLoopState).next_cursor = "" ∧
    (runSlackLoop (fun _ => emptyCursorPage) n initLoopState).requests = n := by
  have h := runSlackLoop_empty_cursor_inv n initLoopState rfl rfl
  exact ⟨h.1, h.2.1, by rw [h.2.2]; simp [initLoopState]⟩

/-- C5: a directory member matches a person exactly when it is neither
deleted nor restricted and its profile's `real_name` equals the person's
name or its profile's `email` equals the person's email (case-sensitive
string equality); either equality alone suffices, and a deleted or
restricted member never matches. -/
theorem member_matches_iff (m : SlackMember) (p : Oncall) :
    member_matches m p = true ↔
      m.deleted = false ∧ m.is_restricted = false ∧
        (m.profile.real_name = some p.name ∨ m.profile.email = some p.email) := by
  rcases m with ⟨mid, del, res, rn, em⟩
  simp only [member_matches]
  rcases del <;> rcases res <;> rcases rn with _ | rn <;> rcases em with _ | em <;>
    simp [beq_iff_eq] <;>
    first
      | exact eq_comm
      | (constructor <;> rintro (h | h) <;> simp [h])

/-- C6: whenever the PagerDuty response has `more: true`, the run exits
with code 1 after printing exactly the request URI (which carries the
escalation-policy identifier as its suffix) and the overflow message; no
directory request and no update request is ever issued. -/
theorem more_flag_aborts_run (env : Env) (pd : PDResponse)
    (server : Nat → SlackPage) (fuel : Nat) (esc : String)
    (hesc : env.PAGERDUTY_ONCALL_ESCALATION = some esc) (hne : esc ≠ "")
    (hpk : truthy env.PAGERDUTY_APIKEY = true)
    (hsk : truthy env.SLACK_APIKEY = true)
    (hug : truthy env.SLACK_USERGROUP_ID = true)
    (hmore : pd.more = true) :
    runProgram env pd server fuel =
      some ⟨1, [OutputLine.text (pagerduty_api_oncall env ++ esc),
        OutputLine.text overflowMsg], 1, 0, none, none⟩ := by
  have huri : pagerduty_oncall_uri env = some (pagerduty_api_oncall env ++ esc) := by
    simp [pagerduty_oncall_uri, hesc]
  have htr : truthy env.PAGERDUTY_ONCALL_ESCALATION = true := by
    simp [truthy, hesc, hne]
  simp [runProgram, huri, htr, hpk, hsk, hug, hmore]

/-- C6 witness: a concrete run with `more: true` aborts as stated. -/
theorem more_flag_aborts_run_witness :
    runProgram envAllSet pdMoreTrue oneServer 3 =
      some ⟨1, [OutputLine.text (pagerduty_api_oncall envAllSet ++ "POL42"),
        OutputLine.text overflowMsg], 1, 0, none, none⟩ :=
  more_flag_aborts_run envAllSet pdMoreTrue oneServer 3 "POL42"
    rfl (by decide) (by decide) (by decide) (by decide) rfl

/-- C7: `get_slack_id` scans the accumulated directory in order and
returns the `id` of the first matching member, exactly `List.find?` of
the matching predicate; it returns `none` — distinguishable from every
`some id` — when no member matches. -/
theorem get_slack_id_eq_find (members : List SlackMember) (p : Oncall) :
    get_slack_id members p =
      (members.find? fun m => member_matches m p).map SlackMember.id := by
  induction members with
  | nil => rfl
  | cons m rest ih =>
    by_cases h : member_matches m p = true
    · simp [get_slack_id, List.find?_cons_of_pos, h]
    · rw [Bool.not_eq_true] at h
      simp [get_slack_id, List.find?_cons_of_neg, h, ih]

/-- C8 counterexample: with every variable set except
PAGERDUTY_ONCALL_ESCALATION, the run aborts before any network call, but
via an uncaught TypeError at line 20 whose message does not name the
missing configuration value (no output line is printed at all). -/
theorem missing_escalation_unnamed_diagnostic :
    runProgram envNoEsc pdOnlyPrimary oneServer 3 =
      some ⟨1, [], 0, 0, none, some (PyExc.typeError
        "cannot concatenate \x27str\x27 and \x27NoneType\x27 objects")⟩ ∧
    strContains "cannot concatenate \x27str\x27 and \x27NoneType\x27 objects"
      "PAGERDUTY_ONCALL_ESCALATION" = false := by
  decide

/-- C8 (amended): missing any of the four mandatory values aborts the run
before any network call with exit code 1, no update request and at most
one diagnostic line: the fixed message naming PAGERDUTY_APIKEY,
SLACK_APIKEY and SLACK_USERGROUP_ID (not necessarily the missing value),
or no line at all when the escalation variable is unset. -/
theorem missing_config_aborts_before_network (env : Env) (pd : PDResponse)
    (server : Nat → SlackPage) (fuel : Nat)
    (hmiss : truthy env.PAGERDUTY_APIKEY = false ∨
      truthy env.PAGERDUTY_ONCALL_ESCALATION = false ∨
      truthy env.SLACK_APIKEY = false ∨ truthy env.SLACK_USERGROUP_ID = false) :
    ∃ r : RunResult, runProgram env pd server fuel = some r ∧
      r.exitCode = 1 ∧ r.pdRequests = 0 ∧ r.slackUserRequests = 0 ∧
      r.updateRequest = none ∧
      (r.outputs = [OutputLine.text missingEnvMsg] ∨ r.outputs = []) := by
  cases hesc : env.PAGERDUTY_ONCALL_ESCALATION with
  | none =>
    exact ⟨⟨1, [], 0, 0, none, some (PyExc.typeError
        "cannot concatenate \x27str\x27 and \x27NoneType\x27 objects")⟩,
      by simp [runProgram, pagerduty_oncall_uri, hesc],
      rfl, rfl, rfl, rfl, Or.inr rfl⟩
  | some esc =>
    have hcond : (truthy env.PAGERDUTY_APIKEY &&
        truthy env.PAGERDUTY_ONCALL_ESCALATION &&
        truthy env.SLACK_APIKEY && truthy env.SLACK_USERGROUP_ID) = false := by
      rcases hmiss with h | h | h | h <;> simp [h]
    have huri : pagerduty_oncall_uri env = some (pagerduty_api_oncall env ++ esc) := by
      simp [pagerduty_oncall_uri, hesc]
    exact ⟨⟨1, [OutputLine.text missingEnvMsg], 0, 0, none, none⟩,
      by simp [runProgram, huri, hcond],
      rfl, rfl, rfl, rfl, Or.inl rfl⟩

/-- C8 witness: a concrete run with the Slack API key missing aborts
before any network call. -/
theorem missing_config_aborts_before_network_witness :
    ∃ r : RunResult, runProgram envNoSlackKey pdOnlyPrimary oneServer 3 = some r ∧
      r.exitCode = 1 ∧ r.pdRequests = 0 ∧ r.slackUserRequests = 0 ∧
      r.updateRequest = none ∧
      (r.outputs = [OutputLine.text missingEnvMsg] ∨ r.outputs = []) :=
  missing_config_aborts_before_network envNoSlackKey pdOnlyPrimary oneServer 3
    (Or.inr (Or.inr (Or.inl (by decide))))

/-- C9: for every directory service and fuel, the accumulated user list
equals the concatenation, in fetch order, of the `members` arrays of the
pages fetched, where a page lacking a `members` key contributes nothing,
and no error is raised (the loop body is total). -/
theorem slack_users_eq_fetched_concat (server : Nat → SlackPage) (fuel : Nat) :
    (runSlackLoop server fuel initLoopState).users =
      fetchedConcat server (runSlackLoop server fuel initLoopState).requests :=
  runSlackLoop_users_inv server fuel initLoopState
    (by simp [initLoopState, fetchedConcat])

/-- C10: a member whose profile lacks both `real_name` and `email` never
matches any person — each `in`-guard at lines 47-48 fails — so
`get_slack_id` skips it and continues with the remaining members,
raising no lookup error. -/
theorem missing_profile_fields_never_match (m : SlackMember)
    (rest : List SlackMember) (p : Oncall)
    (h1 : m.profile.real_name = none) (h2 : m.profile.email = none) :
    member_matches m p = false ∧
    get_slack_id (m :: rest) p = get_slack_id rest p := by
  have hm : member_matches m p = false := by
    simp [member_matches, h1, h2]
  exact ⟨hm, by simp [get_slack_id, hm]⟩

/-- C10 witness: a concrete member with an empty profile is skipped. -/
theorem missing_profile_fields_never_match_witness :
    member_matches ⟨"U9", false, false, ⟨none, none⟩⟩ oncallA = false ∧
    get_slack_id [⟨"U9", false, false, ⟨none, none⟩⟩, memberU1] oncallA =
      get_slack_id [memberU1] oncallA :=
  missing_profile_fields_never_match ⟨"U9", false, false, ⟨none, none⟩⟩
    [memberU1] oncallA rfl rfl

end WhosOnCall
